import Mathlib

/-!
Shallow embedding of `src/youtube_extract_liked_videos.py`.

The program is a linear orchestrator: it lists liked videos, checks each
against two stores (Mongo "videos" collection and Supabase "youtube_videos"
table), resolves a transcript through a primary provider
(youtube-transcript-api) with a pytube fallback, builds a record and writes
it to both stores.  External collaborators (the video API, the two
transcript providers, the two stores) are modelled as explicit functions
passed in a `World`; computations produce an event trace so that claims
about which services are contacted, what is logged, and what is written can
be stated and proved.
-/

set_option autoImplicit false

namespace YoutubeExtract

/-- Python strings, modelled as lists of characters. -/
abbrev Str := List Char

/-- Python exception values that the script can raise or catch. -/
inductive PyErr where
  /-- `googleapiclient.errors.HttpError` from the video API. -/
  | http (msg : Str)
  /-- `ValueError`, raised by the environment checks. -/
  | valueError (msg : Str)
  /-- `AttributeError`, raised when a missing attribute is accessed. -/
  | attributeError (msg : Str)
  /-- A Supabase API-level error raised by `execute()`. -/
  | apiError (msg : Str)
  /-- Any other exception. -/
  | generic (msg : Str)
deriving DecidableEq

/-! ### Video-id extraction (`_get_video_id_from_url`, lines 63-67)

The source computes `url.split('v=')[-1].split('&')[0]`.  Python
`str.split` with a non-empty separator scans left to right, consuming
non-overlapping occurrences; it always returns a non-empty list, so the
`except IndexError` branch at lines 66-67 is dead code.  The two `split`
calls are embedded as two specialised structural functions. -/

/-- Python `s.split("v=")`: cut `s` at each non-overlapping occurrence of
the two-character separator `v=`, scanning left to right. -/
def splitVEq : Str → List Str
  | [] => [[]]
  | [a] => [[a]]
  | a :: b :: s =>
    if a = 'v' ∧ b = '=' then
      [] :: splitVEq s
    else
      match splitVEq (b :: s) with
      | [] => [[a]]
      | t :: ts => (a :: t) :: ts

/-- Python `s.split("&")`: cut `s` at each occurrence of `&`. -/
def splitAmp : Str → List Str
  | [] => [[]]
  | a :: s =>
    if a = '&' then
      [] :: splitAmp s
    else
      match splitAmp s with
      | [] => [[a]]
      | t :: ts => (a :: t) :: ts

/-- Whether the two-character sequence `v=` occurs somewhere in `s`. -/
def occursVEq : Str → Bool
  | [] => false
  | [_] => false
  | a :: b :: s => decide (a = 'v' ∧ b = '=') || occursVEq (b :: s)

/-- `_get_video_id_from_url` (line 65): `url.split('v=')[-1].split('&')[0]`.
`[-1]` is the last element and `[0]` the first; both lists are non-empty,
so the defaults of `getLastD`/`headD` are never used. -/
def extractVideoId (url : Str) : Str :=
  (splitAmp ((splitVEq url).getLastD [])).headD []

/-! ### Transcript resolution (`_get_transcript`, lines 69-95) -/

/-- `"No transcript available"`, the sentinel text returned when no
provider yields a transcript. -/
def NO_TRANSCRIPT : Str := "No transcript available".data

/-- Language code `'en'`. -/
def EN : Str := "en".data

/-- Language code `'ta'`. -/
def TA : Str := "ta".data

/-- Provenance tag of a resolved transcript: `'yta'` for the primary
provider (youtube-transcript-api), `'pytube'` for the fallback. -/
inductive Provenance where
  | yta
  | pytube
deriving DecidableEq

/-- Outcome of `YouTubeTranscriptApi.get_transcript(video_id, ['en','ta'])`
(line 76): either the list of caption segments (their `text` fields, in
order), one of the three officially expected exceptions
(`TranscriptsDisabled`, `NoTranscriptFound`, `CouldNotRetrieveTranscript`,
line 79), or any other exception (line 81). -/
inductive PrimaryResult where
  | ok (segments : List Str)
  | expectedErr
  | otherErr (msg : Str)
deriving DecidableEq

/-- Outcome of the pytube fallback block (lines 85-93): either a working
client whose `captions.get_by_language_code` lookup is modelled as a map
from language code to the SRT text that `generate_srt_captions()` would
produce for that track (`none` when the track is absent), or a
`PytubeError` (line 90), or any other exception (line 92); an error raised
anywhere inside the block — construction, lookup or SRT generation — is
modelled by the two error constructors. -/
inductive FallbackBehavior where
  | ok (captions : Str → Option Str)
  | pytubeErr (msg : Str)
  | otherErr (msg : Str)

/-- The record built at lines 143-151.  `oid` is the Mongo-internal `_id`
field: absent when the record is built, set in place by
`insert_one`, and popped from the copy sent to Supabase (line 116). -/
structure VideoData where
  video_id : Str
  title : Str
  published_at : Str
  description : Str
  youtube_url : Str
  added_at : Str
  transcript : Str
  oid : Option Nat
deriving DecidableEq

/-- Events recorded while the script runs: service contacts, store writes,
console logs, and pacing sleeps. -/
inductive REvent where
  /-- `videos().list(part='snippet', myRating='like', maxResults=n)`. -/
  | listRequest (maxResults : Nat)
  /-- "Skipping existing video" log (line 137) and `continue`. -/
  | skip (vid : Str)
  /-- A call to the primary transcript provider with this video id. -/
  | primaryCall (vid : Str)
  /-- "Error with youtube-transcript-api" log (line 82). -/
  | logPrimary (msg : Str)
  /-- Construction of a pytube client for this URL (line 86). -/
  | fallbackCall (url : Str)
  /-- "Error with pytube" / "Unexpected error with pytube" log. -/
  | logFallback (msg : Str)
  /-- `mongo_collection.insert_one` attempted with this record. -/
  | mongoWrite (d : VideoData)
  /-- Supabase `table(...).insert(...).execute()` attempted. -/
  | supaWrite (d : VideoData)
  /-- "Successfully inserted video" log (line 119). -/
  | logSuccess (title : Str)
  /-- "Error inserting video data" log (line 121). -/
  | logInsertError (title : Str) (e : PyErr)
  /-- `time.sleep(n)` (line 154). -/
  | slept (n : Nat)
  /-- One of the two top-level handlers of `run` logged `e` (156-159). -/
  | logTop (tag : Str) (e : PyErr)
deriving DecidableEq

/-- `supabase_data.pop('_id', None)` (line 116): remove the Mongo-internal
identifier from the copy sent to store B. -/
def stripId (d : VideoData) : VideoData := { d with oid := none }

/-- The second step of `_get_transcript` (lines 84-95): construct a pytube
client from the URL, take the `'en'` caption track or else the `'ta'`
track, and return its SRT text; on absence or any error return the
sentinel.  `t0` is the event trace accumulated before this step. -/
def fallbackStep (fall : Str → FallbackBehavior) (url : Str) (t0 : List REvent) :
    (Str × Option Provenance) × List REvent :=
  match fall url with
  | .ok caps =>
    match caps EN with
    | some srt => ((srt, some .pytube), t0 ++ [.fallbackCall url])
    | none =>
      match caps TA with
      | some srt => ((srt, some .pytube), t0 ++ [.fallbackCall url])
      | none => ((NO_TRANSCRIPT, none), t0 ++ [.fallbackCall url])
  | .pytubeErr m => ((NO_TRANSCRIPT, none), t0 ++ [.fallbackCall url, .logFallback m])
  | .otherErr m => ((NO_TRANSCRIPT, none), t0 ++ [.fallbackCall url, .logFallback m])

/-- `_get_transcript` (lines 69-95).  The returned pair is the Python
return value `(transcript, method)`; the list is the trace of provider
contacts and logs.  `if not video_id` (line 71) is an emptiness test: the
extraction of line 65 never returns `None` (see `extractVideoId`). -/
def getTranscript (prim : Str → PrimaryResult) (fall : Str → FallbackBehavior)
    (url : Str) : (Str × Option Provenance) × List REvent :=
  let video_id := extractVideoId url
  if video_id = [] then
    ((NO_TRANSCRIPT, none), [])
  else
    match prim video_id with
    | .ok segs => ((List.intercalate [' '] segs, some .yta), [.primaryCall video_id])
    | .expectedErr => fallbackStep fall url [.primaryCall video_id]
    | .otherErr m => fallbackStep fall url [.primaryCall video_id, .logPrimary m]

/-! ### Existence check (`_check_if_video_exists`, lines 97-107) -/

/-- A document returned by `find_one`.  A Mongo document always carries an
`_id` field, hence is a non-empty dict and truthy in Python. -/
structure MongoDoc where
  payload : Str
deriving DecidableEq

/-- The dynamic value returned by `_check_if_video_exists`: Python
`exists_mongo or exists_supabase` yields the Mongo document itself when
store A matched, and a genuine boolean otherwise. -/
inductive PyValue where
  | doc (d : MongoDoc)
  | bool (b : Bool)
deriving DecidableEq

/-- Python truthiness of the value returned by the existence check. -/
def truthy : PyValue → Bool
  | .doc _ => true
  | .bool b => b

/-- Whether a normal value was returned or an exception escaped. -/
inductive CheckOutcome where
  | ret (v : PyValue)
  | exn (e : PyErr)
deriving DecidableEq

/-- Message of the `AttributeError` produced by the broken handler. -/
def ATTR_MSG : Str :=
  "AttributeError: ClientOptions has no attribute APIError".data

/-- `_check_if_video_exists` (lines 97-107).  `mongoFind` models
`mongo_collection.find_one({'video_id': vid})`; `supaSelect` models the
Supabase select of line 101, returning the matching rows or raising.  When
the select raises, the `except supabase_exceptions.APIError` clause is
evaluated — but line 14 binds `supabase_exceptions` to `ClientOptions`,
which has no `APIError` attribute, so evaluating the clause raises
`AttributeError` and the original error is not handled. -/
def check_if_video_exists (mongoFind : Str → Option MongoDoc)
    (supaSelect : Str → Except PyErr (List Str)) (vid : Str) : CheckOutcome :=
  let exists_mongo := mongoFind vid
  match supaSelect vid with
  | .ok rows =>
    let exists_supabase : Bool := decide (0 < rows.length)
    .ret (match exists_mongo with
          | some d => .doc d
          | none => .bool exists_supabase)
  | .error _ => .exn (.attributeError ATTR_MSG)

/-! ### Dual-store write (`_insert_video_data`, lines 109-121) -/

/-- The body of the `try` block of `_insert_video_data` (lines 111-119):
Mongo insert (which sets `_id` on the passed dict and is modelled by
`mIns` returning the generated id), then the Supabase insert of the copy
with `_id` popped, then the success log.  Returns the trace of events
together with the exception that escaped the body, if any. -/
def insertBody (mIns : VideoData → Except PyErr Nat)
    (sIns : VideoData → Except PyErr Unit) (d : VideoData) :
    List REvent × Option PyErr :=
  match mIns d with
  | .error e => ([.mongoWrite d], some e)
  | .ok oid =>
    let d1 := { d with oid := some oid }
    let supaData := stripId d1
    match sIns supaData with
    | .error e => ([.mongoWrite d, .supaWrite supaData], some e)
    | .ok _ => ([.mongoWrite d, .supaWrite supaData, .logSuccess d1.title], none)

/-- `_insert_video_data` (lines 109-121): the body wrapped in the single
`except Exception` boundary, which logs with `video_data.get('title')`
and swallows the error; the function itself never raises. -/
def insertVideoData (mIns : VideoData → Except PyErr Nat)
    (sIns : VideoData → Except PyErr Unit) (d : VideoData) : List REvent :=
  match insertBody mIns sIns d with
  | (t, none) => t
  | (t, some e) => t ++ [.logInsertError d.title e]

/-! ### Run orchestration (`run`, lines 123-159) -/

/-- One item of the listing response: `id` plus the snippet fields used at
lines 145-147.  `description` is optional, read with a `''` default. -/
structure Item where
  id : Str
  title : Str
  publishedAt : Str
  description : Option Str
deriving DecidableEq

/-- `f"https://www.youtube.com/watch?v={video_id}"` without the id. -/
def urlBase : Str := "https://www.youtube.com/watch?v=".data

/-- The record literal of lines 143-151. -/
def buildRecord (it : Item) (url now transcript : Str) : VideoData :=
  { video_id := it.id
    title := it.title
    published_at := it.publishedAt
    description := it.description.getD []
    youtube_url := url
    added_at := now
    transcript := transcript
    oid := none }

/-- Behaviour of all external collaborators during one run, plus the
wall-clock timestamp used for `added_at`. -/
structure World where
  listResult : Except PyErr (List Item)
  mongoFind : Str → Option MongoDoc
  supaSelect : Str → Except PyErr (List Str)
  primary : Str → PrimaryResult
  fallback : Str → FallbackBehavior
  mongoInsert : VideoData → Except PyErr Nat
  supaInsert : VideoData → Except PyErr Unit
  now : Str

/-- The loop body of `run` (lines 134-154) for one item: existence check
(which can raise, see `check_if_video_exists`), skip-if-present, else
transcript resolution, record build, dual-store write, and the pacing
sleep.  Returns the events of this iteration and the exception that
escaped it, if any. -/
def processItem (w : World) (it : Item) : List REvent × Option PyErr :=
  match check_if_video_exists w.mongoFind w.supaSelect it.id with
  | .exn e => ([], some e)
  | .ret v =>
    if truthy v then
      ([.skip it.id], none)
    else
      let url := urlBase ++ it.id
      let tr := getTranscript w.primary w.fallback url
      let d := buildRecord it url w.now tr.1.1
      (tr.2 ++ insertVideoData w.mongoInsert w.supaInsert d ++ [.slept 1], none)

/-- Folding step of the item loop: once an exception has escaped an
iteration, the remaining items are not processed. -/
def runStep (w : World) (acc : List REvent × Option PyErr) (it : Item) :
    List REvent × Option PyErr :=
  match acc with
  | (t, some e) => (t, some e)
  | (t, none) =>
    let p := processItem w it
    (t ++ p.1, p.2)

/-- The body of `run`'s `try` block (lines 124-154): one listing request
with `maxResults=50`, then the item loop.  Returns the trace and the
exception that escaped, if any. -/
def runBody (w : World) : List REvent × Option PyErr :=
  match w.listResult with
  | .error e => ([.listRequest 50], some e)
  | .ok items => items.foldl (runStep w) ([.listRequest 50], none)

/-- Tag printed by the top-level handlers (lines 156-159): `HttpError`
gets "YouTube API error", everything else "An unexpected error
occurred". -/
def topTag : PyErr → Str
  | .http _ => "YouTube API error".data
  | _ => "An unexpected error occurred".data

/-- `run` (lines 123-159): the body wrapped in the two top-level handlers;
any escaping exception is logged and the run ends normally. -/
def run (w : World) : List REvent :=
  match runBody w with
  | (t, none) => t
  | (t, some e) => t ++ [.logTop (topTag e) e]

/-! ### Startup (`__init__`, lines 26-32, and the environment checks,
lines 53-61) -/

/-- The three environment values read at lines 22-24; `none` models an
unset variable, `some []` an empty one — both falsy in Python. -/
structure Env where
  mongoUri : Option Str
  supabaseUrl : Option Str
  supabaseKey : Option Str

/-- Python falsiness of an optional environment string. -/
def falsyOpt : Option Str → Bool
  | none => true
  | some s => s.isEmpty

/-- Startup events, in the order `__init__` performs them. -/
inductive IEvent where
  /-- `_get_youtube_service` contacted external services (OAuth flow or
  token refresh, lines 42-46). -/
  | externalAuthContact
  /-- `MongoClient(MONGO_URI)` was constructed (line 56; no network
  traffic — pymongo connects lazily). -/
  | mongoClientCreated
  /-- `create_client(SUPABASE_URL, SUPABASE_KEY)` was called (line 61). -/
  | supabaseClientCreated
deriving DecidableEq

/-- Error message of line 55. -/
def MONGO_MSG : Str := "MONGO_URI environment variable not set.".data

/-- Error message of line 60. -/
def SUPA_MSG : Str := "Supabase URL or Key environment variables not set.".data

/-- `VideoProcessor.__init__` (lines 27-32): first `_get_youtube_service`
(lines 34-51), which contacts external services whenever no valid cached
token exists (`authContacts` abstracts that run-dependent fact), then
`_setup_mongo_client` (lines 53-56) with its `MONGO_URI` check, then
`_setup_supabase_client` (lines 58-61) with its URL/key check.  Returns
the construction outcome and the ordered event trace. -/
def initProcessor (authContacts : Bool) (env : Env) :
    Except PyErr Unit × List IEvent :=
  let t0 : List IEvent := if authContacts then [.externalAuthContact] else []
  if falsyOpt env.mongoUri then
    (.error (.valueError MONGO_MSG), t0)
  else
    let t1 := t0 ++ [.mongoClientCreated]
    if falsyOpt env.supabaseUrl || falsyOpt env.supabaseKey then
      (.error (.valueError SUPA_MSG), t1)
    else
      (.ok (), t1 ++ [.supabaseClientCreated])

end YoutubeExtract
namespace YoutubeExtract

/-! ### Event predicates and concrete fixtures used by individual claims -/

/-- Whether an event is the listing request. -/
def isListReq : REvent → Bool
  | .listRequest _ => true
  | _ => false

/-- Whether an event is a store-A insert attempt. -/
def isMongoWriteEv : REvent → Bool
  | .mongoWrite _ => true
  | _ => false

/-- Whether an event is a store-B insert attempt. -/
def isSupaWriteEv : REvent → Bool
  | .supaWrite _ => true
  | _ => false

/-- Whether an event is a top-level error log. -/
def isLogTopEv : REvent → Bool
  | .logTop _ _ => true
  | _ => false

/-- Environment with the store-A URI missing and the store-B values set. -/
def env2 : Env := ⟨none, some "u".data, some "k".data⟩

/-- Fallback URL whose extracted id is `idA`. -/
def url4 : Str := "watch?v=idA".data

/-- Primary provider that always raises an expected transcript error. -/
def prim4 : Str → PrimaryResult := fun _ => .expectedErr

/-- Fallback provider with an `en` caption track only. -/
def fall4 : Str → FallbackBehavior :=
  fun _ => .ok (fun l => if l = EN then some "srt en text".data else none)

/-- Record used to exercise the dual-store writer. -/
def d5 : VideoData :=
  ⟨"v5".data, "Title5".data, "2021".data, [], "u5".data, "t5".data, "tr5".data, none⟩

/-- Store-A insert that succeeds, generating id 5. -/
def m5 : VideoData → Except PyErr Nat := fun _ => .ok 5

/-- Store-B insert that raises. -/
def s5 : VideoData → Except PyErr Unit := fun _ => .error (.apiError "insert failed".data)

/-- An item already present in store A. -/
def itemA : Item := ⟨"aaa".data, "TitleA".data, "2019".data, some "dA".data⟩

/-- A new item, present in neither store. -/
def itemB : Item := ⟨"bbb".data, "TitleB".data, "2020".data, some "dB".data⟩

/-- A well-behaved world whose listing returns `itemA` (present in store A)
and `itemB` (new): both stores respond, the primary provider has a
transcript for `itemB`, both inserts succeed. -/
def w6 : World where
  listResult := .ok [itemA, itemB]
  mongoFind := fun v => if v = "aaa".data then some ⟨"docA".data⟩ else none
  supaSelect := fun _ => .ok []
  primary := fun v => if v = "bbb".data then .ok ["hello".data, "world".data] else .expectedErr
  fallback := fun _ => .pytubeErr "pe".data
  mongoInsert := fun _ => .ok 7
  supaInsert := fun _ => .ok ()
  now := "T0".data

/-- The record `run` builds for `itemB` in the world `w6`. -/
def recB : VideoData :=
  ⟨"bbb".data, "TitleB".data, "2020".data, "dB".data, urlBase ++ "bbb".data,
    "T0".data, "hello world".data, none⟩

/-- The full event trace of `run w6`. -/
def trace6 : List REvent :=
  [.listRequest 50, .skip "aaa".data, .primaryCall "bbb".data,
    .mongoWrite recB, .supaWrite recB, .logSuccess "TitleB".data, .slept 1]

/-- A world whose listing request raises an `HttpError`. -/
def w7 : World where
  listResult := .error (.http "quota".data)
  mongoFind := fun _ => none
  supaSelect := fun _ => .ok []
  primary := fun _ => .expectedErr
  fallback := fun _ => .pytubeErr []
  mongoInsert := fun _ => .ok 0
  supaInsert := fun _ => .ok ()
  now := []

/-- URL whose extracted id is `vid9`. -/
def url9 : Str := "x?v=vid9".data

/-- Primary provider returning the two segments `a` and `b`. -/
def prim9 : Str → PrimaryResult := fun _ => .ok ["a".data, "b".data]

/-- Fallback provider that raises a `PytubeError`. -/
def fall9 : Str → FallbackBehavior := fun _ => .pytubeErr []

/-- URL whose extracted id is `idB`. -/
def url10 : Str := "watch?v=idB".data

/-- Primary provider that raises an unexpected error. -/
def prim10 : Str → PrimaryResult := fun _ => .otherErr "boom".data

/-- Fallback provider with a `ta` caption track only. -/
def fall10 : Str → FallbackBehavior :=
  fun _ => .ok (fun l => if l = TA then some "1 00:00:00 srt".data else none)

end YoutubeExtract

/-! ### Lemmas about the two split functions -/
namespace YoutubeExtract

theorem splitVEq_ne_nil (s : Str) : splitVEq s ≠ [] := by
  induction s using splitVEq.induct with
  | case1 => simp [splitVEq]
  | case2 a => simp [splitVEq]
  | case3 a b s h ih => simp [splitVEq, h]
  | case4 a b s h hnil ih => exact absurd hnil ih
  | case5 a b s h t ts hts ih => simp [splitVEq, if_neg h, hts]

theorem splitAmp_ne_nil (s : Str) : splitAmp s ≠ [] := by
  induction s with
  | nil => simp [splitAmp]
  | cons a s ih =>
    by_cases h : a = '&'
    · simp [splitAmp, h]
    · simp only [splitAmp, if_neg h]
      cases hs : splitAmp s with
      | nil => exact absurd hs ih
      | cons t ts => simp

theorem splitVEq_of_not_occurs (s : Str) (h : occursVEq s = false) :
    splitVEq s = [s] := by
  induction s using splitVEq.induct with
  | case1 => rfl
  | case2 a => rfl
  | case3 a b s hc ih => simp [occursVEq, hc] at h
  | case4 a b s hc hnil ih => exact absurd hnil (splitVEq_ne_nil _)
  | case5 a b s hc t ts hts ih =>
    simp only [occursVEq, Bool.or_eq_false_iff, decide_eq_false_iff_not] at h
    have h2 := ih h.2
    rw [hts] at h2
    cases h2
    simp [splitVEq, if_neg hc, hts]

theorem two_le_splitVEq_of_occurs (s : Str) (h : occursVEq s = true) :
    2 ≤ (splitVEq s).length := by
  induction s using splitVEq.induct with
  | case1 => simp [occursVEq] at h
  | case2 a => simp [occursVEq] at h
  | case3 a b s hc ih =>
    simp only [splitVEq, if_pos hc, List.length_cons]
    have hne := splitVEq_ne_nil s
    cases hs : splitVEq s with
    | nil => exact absurd hs hne
    | cons t ts => simp
  | case4 a b s hc hnil ih => exact absurd hnil (splitVEq_ne_nil _)
  | case5 a b s hc t ts hts ih =>
    simp only [occursVEq, Bool.or_eq_true, decide_eq_true_eq] at h
    rcases h with h | h
    · exact absurd h hc
    · have h2 := ih h
      rw [hts] at h2
      simp only [splitVEq, if_neg hc, hts]
      simpa using h2

theorem occursVEq_append_marker (x y : Str) :
    occursVEq (x ++ 'v' :: '=' :: y) = true := by
  induction x with
  | nil => simp [occursVEq]
  | cons a x ih =>
    cases hx : x ++ 'v' :: '=' :: y with
    | nil => exact absurd hx (by simp)
    | cons c w =>
      simp only [List.cons_append, hx, occursVEq, Bool.or_eq_true]
      right
      rw [← hx]
      exact ih

theorem splitVEq_getLast (url : Str) :
    ∀ pre rest : Str, occursVEq rest = false → url = pre ++ 'v' :: '=' :: rest →
      (splitVEq url).getLast? = some rest := by
  induction url using splitVEq.induct with
  | case1 =>
    intro pre rest h hu
    exact absurd hu.symm (by simp)
  | case2 a =>
    intro pre rest h hu
    have hl := congrArg List.length hu
    simp [List.length_append] at hl
    omega
  | case3 a b s hc ih =>
    obtain ⟨ha, hb⟩ := hc
    subst ha
    subst hb
    intro pre rest h hu
    cases pre with
    | nil =>
      simp only [List.nil_append, List.cons.injEq, true_and] at hu
      subst hu
      simp [splitVEq, splitVEq_of_not_occurs _ h]
    | cons p pre₂ =>
      cases pre₂ with
      | nil =>
        exfalso
        simp only [List.cons_append, List.nil_append, List.cons.injEq] at hu
        exact absurd hu.2.1 (by decide)
      | cons q pre' =>
        simp only [List.cons_append, List.cons.injEq] at hu
        obtain ⟨-, -, hs⟩ := hu
        have hlast := ih pre' rest h hs
        have hsplit : splitVEq ('v' :: '=' :: s) = [] :: splitVEq s := by
          simp [splitVEq]
        obtain ⟨t, ts, hv⟩ : ∃ t ts, splitVEq s = t :: ts := by
          cases hx : splitVEq s with
          | nil => exact absurd hx (splitVEq_ne_nil _)
          | cons t ts => exact ⟨t, ts, rfl⟩
        rw [hsplit, hv, List.getLast?_cons_cons]
        rw [hv] at hlast
        exact hlast
  | case4 a b s hc hnil ih =>
    intro pre rest h hu
    exact absurd hnil (splitVEq_ne_nil _)
  | case5 a b s hc t ts hts ih =>
    intro pre rest h hu
    cases pre with
    | nil =>
      exfalso
      simp only [List.nil_append, List.cons.injEq] at hu
      exact hc ⟨hu.1, hu.2.1⟩
    | cons p pre' =>
      simp only [List.cons_append, List.cons.injEq] at hu
      obtain ⟨-, hs⟩ := hu
      have hlast := ih pre' rest h hs
      rw [hts] at hlast
      have hocc : occursVEq (b :: s) = true := by
        rw [hs]; exact occursVEq_append_marker _ _
      have h2 := two_le_splitVEq_of_occurs _ hocc
      rw [hts] at h2
      cases ts with
      | nil => simp at h2
      | cons u ts' =>
        simp only [splitVEq, if_neg hc, hts]
        rw [List.getLast?_cons_cons]
        rw [List.getLast?_cons_cons] at hlast
        exact hlast

theorem splitAmp_head (id suf : Str) (h1 : '&' ∉ id)
    (h2 : suf = [] ∨ suf.head? = some '&') :
    (splitAmp (id ++ suf)).head? = some id := by
  induction id with
  | nil =>
    rcases h2 with h2 | h2
    · subst h2; rfl
    · cases suf with
      | nil => rfl
      | cons c s =>
        simp only [List.head?_cons, Option.some.injEq] at h2
        subst h2
        simp [splitAmp]
  | cons a id' ih =>
    have ha : a ≠ '&' := fun hcontra => h1 (hcontra ▸ List.mem_cons_self a id')
    have hmem : '&' ∉ id' := fun hcontra => h1 (List.mem_cons_of_mem a hcontra)
    have ih2 := ih hmem
    simp only [List.cons_append, splitAmp, if_neg ha]
    cases hv : splitAmp (id' ++ suf) with
    | nil => exact absurd hv (splitAmp_ne_nil _)
    | cons t ts =>
      rw [hv] at ih2
      simp only [List.head?_cons, Option.some.injEq] at ih2
      subst ih2
      simp

end YoutubeExtract

namespace YoutubeExtract

theorem fallbackStep_trace (fall : Str → FallbackBehavior) (url : Str) (t0 : List REvent) :
    ∃ t1 : List REvent, (fallbackStep fall url t0).2 = t0 ++ .fallbackCall url :: t1
      ∧ t1.countP isListReq = 0 := by
  unfold fallbackStep
  cases fall url with
  | ok caps =>
    cases hEN : caps EN with
    | some srt => exact ⟨[], by simp [hEN]⟩
    | none =>
      cases hTA : caps TA with
      | some srt => exact ⟨[], by simp [hEN, hTA]⟩
      | none => exact ⟨[], by simp [hEN, hTA]⟩
  | pytubeErr m => exact ⟨[.logFallback m], by simp [isListReq]⟩
  | otherErr m => exact ⟨[.logFallback m], by simp [isListReq]⟩

/-- C3 (amended).  Identifier extraction returns the text between the last
occurrence of `v=` and the following `&`: whenever the URL decomposes as
`pre ++ "v=" ++ id ++ suf` with no `&` in the id, no further occurrence of
`v=`, and the suffix empty or `&`-initiated, extraction yields exactly
`id`.  The resolver short-circuits to `("No transcript available", none)`
without contacting any provider exactly when the extracted text is empty;
when it is non-empty — including for URLs that lack `v=` entirely, whose
extracted text is the URL prefix before the first `&` — the primary
provider is contacted first. -/
theorem c3_video_id_extraction :
    (∀ pre id suf : Str, '&' ∉ id → occursVEq (id ++ suf) = false →
        (suf = [] ∨ suf.head? = some '&') →
        extractVideoId (pre ++ 'v' :: '=' :: (id ++ suf)) = id)
    ∧ (∀ (prim : Str → PrimaryResult) (fall : Str → FallbackBehavior) (url : Str),
        extractVideoId url = [] →
        getTranscript prim fall url = ((NO_TRANSCRIPT, none), []))
    ∧ (∀ (prim : Str → PrimaryResult) (fall : Str → FallbackBehavior) (url : Str),
        extractVideoId url ≠ [] →
        ((getTranscript prim fall url).2).head? =
          some (.primaryCall (extractVideoId url))) := by
  refine ⟨?_, ?_, ?_⟩
  · intro pre id suf h1 h2 h3
    unfold extractVideoId
    rw [show (splitVEq (pre ++ 'v' :: '=' :: (id ++ suf))).getLastD [] = id ++ suf from ?side]
    · have hh := splitAmp_head id suf h1 h3
      cases hv : splitAmp (id ++ suf) with
      | nil => exact absurd hv (splitAmp_ne_nil _)
      | cons t ts =>
        rw [hv] at hh
        simp only [List.head?_cons, Option.some.injEq] at hh
        subst hh
        rfl
    case side =>
      have hl := splitVEq_getLast (pre ++ 'v' :: '=' :: (id ++ suf)) pre (id ++ suf) h2 rfl
      cases hv : splitVEq (pre ++ 'v' :: '=' :: (id ++ suf)) with
      | nil => exact absurd hv (splitVEq_ne_nil _)
      | cons t ts =>
        rw [hv] at hl
        rw [List.getLastD_eq_getLast?, hl]
        rfl
  · intro prim fall url h
    simp [getTranscript, h]
  · intro prim fall url h
    cases hp : prim (extractVideoId url) with
    | ok segs => simp [getTranscript, h, hp]
    | expectedErr =>
      obtain ⟨t1, ht, -⟩ := fallbackStep_trace fall url [.primaryCall (extractVideoId url)]
      simp [getTranscript, h, hp, ht]
    | otherErr m =>
      obtain ⟨t1, ht, -⟩ := fallbackStep_trace fall url
        [.primaryCall (extractVideoId url), .logPrimary m]
      simp [getTranscript, h, hp, ht]

/-- C3 counterexample.  The claim as stated is false on the code in both
halves: the URL `watch?v=abc&prev=x` contains `v=abc&...`, yet extraction
yields `x` (the text after the *last* `v=`), not `abc`; and the URL `abc`
lacks `v=` entirely, yet the extracted candidate id is `abc` itself
(non-empty), so the resolver does contact the primary provider instead of
returning immediately. -/
theorem c3_counterexample :
    ("watch?v=abc&prev=x".data =
        "watch?".data ++ 'v' :: '=' :: ("abc".data ++ "&prev=x".data))
    ∧ '&' ∉ "abc".data
    ∧ extractVideoId "watch?v=abc&prev=x".data ≠ "abc".data
    ∧ extractVideoId "abc".data ≠ []
    ∧ (getTranscript (fun _ => PrimaryResult.expectedErr)
        (fun _ => FallbackBehavior.pytubeErr []) "abc".data).2 ≠ [] := by
  refine ⟨by decide, by decide, by decide, by decide, by decide⟩

/-- Witness for C3: concrete instances of the amended statement. -/
theorem c3_witness :
    extractVideoId ("watch?".data ++ 'v' :: '=' :: ("abc".data ++ "&t=1".data)) = "abc".data
    ∧ getTranscript (fun _ => PrimaryResult.expectedErr)
        (fun _ => FallbackBehavior.pytubeErr []) "x?v=&y".data
        = ((NO_TRANSCRIPT, none), []) := by
  constructor
  · exact c3_video_id_extraction.1 "watch?".data "abc".data "&t=1".data
      (by decide) (by decide) (Or.inr (by decide))
  · exact c3_video_id_extraction.2.1 _ _ _ (by decide)

end YoutubeExtract

namespace YoutubeExtract

/-- C9.  When the primary transcript provider succeeds, the resolved
transcript is the concatenation of all returned caption segments in
order, separated by single spaces, with the primary (`yta`) provenance
tag; in particular segments `a`, `b` yield `("a b", yta)`. -/
theorem c9_primary_concatenation :
    ∀ (prim : Str → PrimaryResult) (fall : Str → FallbackBehavior)
      (url : Str) (segs : List Str),
      extractVideoId url ≠ [] →
      prim (extractVideoId url) = .ok segs →
      (getTranscript prim fall url).1 = (List.intercalate [' '] segs, some .yta)
      ∧ (segs = ["a".data, "b".data] →
          (getTranscript prim fall url).1 = ("a b".data, some .yta)) := by
  intro prim fall url segs h hp
  have h1 : (getTranscript prim fall url).1 = (List.intercalate [' '] segs, some .yta) := by
    simp [getTranscript, h, hp]
  refine ⟨h1, ?_⟩
  intro hs
  subst hs
  rw [h1]
  decide

/-- Witness for C9 at the concrete segments `a`, `b`. -/
theorem c9_witness :
    (getTranscript prim9 fall9 url9).1 = ("a b".data, some .yta) :=
  (c9_primary_concatenation prim9 fall9 url9 ["a".data, "b".data]
    (by decide) rfl).2 rfl

/-- C4.  When the primary provider signals one of its three expected
errors, the resolver suppresses it and contacts the fallback provider;
the fallback is asked for an `en` caption first and a `ta` caption second
(an available `en` track wins regardless of the `ta` one); if neither
language has a track, or the fallback itself errors, the resolver returns
`("No transcript available", none)`. -/
theorem c4_fallback_languages :
    ∀ (prim : Str → PrimaryResult) (fall : Str → FallbackBehavior) (url : Str),
      extractVideoId url ≠ [] →
      prim (extractVideoId url) = .expectedErr →
      (REvent.fallbackCall url ∈ (getTranscript prim fall url).2)
      ∧ (∀ caps srt, fall url = .ok caps → caps EN = some srt →
          (getTranscript prim fall url).1 = (srt, some .pytube))
      ∧ (∀ caps srt, fall url = .ok caps → caps EN = none → caps TA = some srt →
          (getTranscript prim fall url).1 = (srt, some .pytube))
      ∧ (∀ caps, fall url = .ok caps → caps EN = none → caps TA = none →
          (getTranscript prim fall url).1 = (NO_TRANSCRIPT, none))
      ∧ (∀ m, fall url = .pytubeErr m ∨ fall url = .otherErr m →
          (getTranscript prim fall url).1 = (NO_TRANSCRIPT, none)) := by
  intro prim fall url h hp
  refine ⟨?_, ?_, ?_, ?_, ?_⟩
  · obtain ⟨t1, ht, -⟩ := fallbackStep_trace fall url [.primaryCall (extractVideoId url)]
    have h2 : (getTranscript prim fall url).2 =
        [REvent.primaryCall (extractVideoId url)] ++ REvent.fallbackCall url :: t1 := by
      simp [getTranscript, h, hp, ht]
    rw [h2]
    exact List.mem_append_right _ (List.mem_cons_self _ _)
  · intro caps srt hf hEN
    simp [getTranscript, h, hp, fallbackStep, hf, hEN]
  · intro caps srt hf hEN hTA
    simp [getTranscript, h, hp, fallbackStep, hf, hEN, hTA]
  · intro caps hf hEN hTA
    simp [getTranscript, h, hp, fallbackStep, hf, hEN, hTA]
  · intro m hf
    rcases hf with hf | hf <;> simp [getTranscript, h, hp, fallbackStep, hf]

/-- Witness for C4: primary disabled, fallback has only an `en` track. -/
theorem c4_witness :
    (getTranscript prim4 fall4 url4).1 = ("srt en text".data, some .pytube) := by
  have h := c4_fallback_languages prim4 fall4 url4 (by decide) rfl
  exact h.2.1 (fun l => if l = EN then some "srt en text".data else none)
    "srt en text".data rfl (by simp)

/-- C10.  Whenever the primary provider fails (expectedly or not) and the
fallback provider yields a caption track in `en` or `ta`, the resolver
returns that track's generated SRT text verbatim, paired with the
`pytube` provenance tag — a different format from the space-joined plain
text of the primary path. -/
theorem c10_fallback_srt_verbatim :
    ∀ (prim : Str → PrimaryResult) (fall : Str → FallbackBehavior)
      (url : Str) (caps : Str → Option Str) (srt : Str),
      extractVideoId url ≠ [] →
      (prim (extractVideoId url) = .expectedErr ∨
        ∃ m, prim (extractVideoId url) = .otherErr m) →
      fall url = .ok caps →
      (caps EN = some srt ∨ (caps EN = none ∧ caps TA = some srt)) →
      (getTranscript prim fall url).1 = (srt, some .pytube) := by
  intro prim fall url caps srt h hp hf hcaps
  rcases hp with hp | ⟨m, hp⟩ <;> rcases hcaps with hEN | ⟨hEN, hTA⟩
  · simp [getTranscript, h, hp, fallbackStep, hf, hEN]
  · simp [getTranscript, h, hp, fallbackStep, hf, hEN, hTA]
  · simp [getTranscript, h, hp, fallbackStep, hf, hEN]
  · simp [getTranscript, h, hp, fallbackStep, hf, hEN, hTA]

/-- Witness for C10: primary raises unexpectedly, fallback has a `ta`
track whose SRT text is returned verbatim. -/
theorem c10_witness :
    (getTranscript prim10 fall10 url10).1 = ("1 00:00:00 srt".data, some .pytube) := by
  refine c10_fallback_srt_verbatim prim10 fall10 url10
    (fun l => if l = TA then some "1 00:00:00 srt".data else none)
    "1 00:00:00 srt".data (by decide) (Or.inr ⟨"boom".data, rfl⟩) rfl ?_
  right
  exact ⟨by decide, by simp⟩

end YoutubeExtract

namespace YoutubeExtract

/-- C1 (code bug).  With store A holding a matching document and the
store-B query raising an API-level error, the existence check does not
fold the failure to "not found" and return true: evaluating the broken
`except supabase_exceptions.APIError` clause (where the import alias of
line 14 binds `supabase_exceptions` to `ClientOptions`) raises an
`AttributeError` that escapes the check. -/
theorem c1_supabase_error_check :
    check_if_video_exists
      (fun v => if v = "vid1".data then some ⟨"docA".data⟩ else none)
      (fun _ => .error (.apiError "boom".data)) "vid1".data
      = .exn (.attributeError ATTR_MSG) := by
  decide

/-- C8 (amended).  The existence check returns a genuine boolean exactly
when store A has no match (and store B answers): the boolean of whether
store B returned rows.  When store A matches, Python
`exists_mongo or exists_supabase` short-circuits to the Mongo document
itself — a truthy value, but not a boolean. -/
theorem c8_check_value_shape :
    ∀ (mf : Str → Option MongoDoc) (ss : Str → Except PyErr (List Str)) (vid : Str),
      (∀ d rows, mf vid = some d → ss vid = .ok rows →
        check_if_video_exists mf ss vid = .ret (.doc d))
      ∧ (∀ rows, mf vid = none → ss vid = .ok rows →
        check_if_video_exists mf ss vid = .ret (.bool (decide (0 < rows.length)))) := by
  intro mf ss vid
  constructor
  · intro d rows hd hr
    simp [check_if_video_exists, hd, hr]
  · intro rows hd hr
    simp [check_if_video_exists, hd, hr]

/-- C8 counterexample.  With store A matching (and store B answering
normally), the check's return value is the Mongo document, not a
boolean. -/
theorem c8_counterexample :
    check_if_video_exists
        (fun v => if v = "vid8".data then some ⟨"doc8".data⟩ else none)
        (fun _ => .ok []) "vid8".data = .ret (.doc ⟨"doc8".data⟩)
    ∧ check_if_video_exists
        (fun v => if v = "vid8".data then some ⟨"doc8".data⟩ else none)
        (fun _ => .ok []) "vid8".data ≠ .ret (.bool true)
    ∧ check_if_video_exists
        (fun v => if v = "vid8".data then some ⟨"doc8".data⟩ else none)
        (fun _ => .ok []) "vid8".data ≠ .ret (.bool false) := by
  refine ⟨by decide, by decide, by decide⟩

/-- Witness for C8: both boolean cases at concrete stores. -/
theorem c8_witness :
    check_if_video_exists (fun _ => none) (fun _ => .ok ["r".data]) "v1".data
      = .ret (.bool true)
    ∧ check_if_video_exists (fun _ => none) (fun _ => .ok []) "v1".data
      = .ret (.bool false) := by
  constructor
  · exact (c8_check_value_shape (fun _ => none) (fun _ => .ok ["r".data])
      "v1".data).2 ["r".data] rfl rfl
  · exact (c8_check_value_shape (fun _ => none) (fun _ => .ok [])
      "v1".data).2 [] rfl rfl

/-- C5.  The dual-store writer first hands the record as-is to store A,
then hands store B a copy with the Mongo-internal `_id` field stripped;
any exception escaping the body is caught by the single handler, logged
with the record's title, and swallowed, so the writer always returns
normally — in particular a store-A success followed by a store-B failure
produces exactly the two insert attempts plus the error log. -/
theorem c5_dual_write :
    ∀ (mIns : VideoData → Except PyErr Nat) (sIns : VideoData → Except PyErr Unit)
      (d : VideoData),
      (∀ t e, insertBody mIns sIns d = (t, some e) →
        insertVideoData mIns sIns d = t ++ [.logInsertError d.title e])
      ∧ (insertVideoData mIns sIns d).head? = some (.mongoWrite d)
      ∧ (∀ oid, mIns d = .ok oid →
          (insertVideoData mIns sIns d)[1]? = some (.supaWrite { d with oid := none }))
      ∧ (∀ oid e, mIns d = .ok oid → sIns { d with oid := none } = .error e →
          insertVideoData mIns sIns d =
            [.mongoWrite d, .supaWrite { d with oid := none },
              .logInsertError d.title e]) := by
  intro mIns sIns d
  refine ⟨?_, ?_, ?_, ?_⟩
  · intro t e h
    unfold insertVideoData
    rw [h]
  · cases hm : mIns d with
    | error e => simp [insertVideoData, insertBody, hm]
    | ok oid =>
      cases hs : sIns (stripId { d with oid := some oid }) with
      | error e => simp [insertVideoData, insertBody, hm, hs]
      | ok u => simp [insertVideoData, insertBody, hm, hs]
  · intro oid hm
    cases hs : sIns { d with oid := none } with
    | error e => simp [insertVideoData, insertBody, hm, stripId, hs]
    | ok u => simp [insertVideoData, insertBody, hm, stripId, hs]
  · intro oid e hm hs
    simp [insertVideoData, insertBody, hm, stripId, hs]

/-- Witness for C5: store-A success, store-B failure, swallowed and
logged. -/
theorem c5_witness :
    insertVideoData m5 s5 d5 =
      [.mongoWrite d5, .supaWrite { d5 with oid := none },
        .logInsertError d5.title (.apiError "insert failed".data)] :=
  (c5_dual_write m5 s5 d5).2.2.2 5 (.apiError "insert failed".data) rfl rfl

/-- C2 (amended).  A missing required environment value makes construction
fail with the corresponding descriptive `ValueError` — before the failing
store's client is created, and before the store-B client is ever created —
but only after the video-API authentication step, which runs first and may
itself contact external services. -/
theorem c2_env_checks :
    ∀ (authContacts : Bool) (env : Env),
      (falsyOpt env.mongoUri = true →
        initProcessor authContacts env =
          (.error (.valueError MONGO_MSG),
            if authContacts then [.externalAuthContact] else []))
      ∧ (falsyOpt env.mongoUri = false →
          (falsyOpt env.supabaseUrl || falsyOpt env.supabaseKey) = true →
          initProcessor authContacts env =
            (.error (.valueError SUPA_MSG),
              (if authContacts then [.externalAuthContact] else [])
                ++ [.mongoClientCreated])) := by
  intro auth env
  constructor
  · intro h
    simp [initProcessor, h]
  · intro h1 h2
    simp [initProcessor, h1, h2]

/-- C2 counterexample.  In a run whose auth step contacts external
services (no valid cached token) and whose store-A URI is missing,
construction does fail with the descriptive error — but the external
contact has already happened, so the error does not precede every
external-service contact. -/
theorem c2_counterexample :
    initProcessor true env2 =
      (.error (.valueError MONGO_MSG), [.externalAuthContact])
    ∧ ([IEvent.externalAuthContact] : List IEvent) ≠ [] := by
  exact ⟨rfl, by decide⟩

/-- Witness for C2 at a concrete environment with no auth contact. -/
theorem c2_witness :
    initProcessor false env2 = (.error (.valueError MONGO_MSG), []) := by
  have h := (c2_env_checks false env2).1 (by decide)
  simpa using h

end YoutubeExtract

namespace YoutubeExtract

theorem getTranscript_listReq (prim : Str → PrimaryResult)
    (fall : Str → FallbackBehavior) (url : Str) :
    ((getTranscript prim fall url).2).countP isListReq = 0 := by
  by_cases h : extractVideoId url = []
  · simp [getTranscript, h]
  · cases hp : prim (extractVideoId url) with
    | ok segs => simp [getTranscript, h, hp, isListReq]
    | expectedErr =>
      obtain ⟨t1, ht, hc⟩ := fallbackStep_trace fall url [.primaryCall (extractVideoId url)]
      simp [getTranscript, h, hp, ht, List.countP_cons, isListReq, hc]
    | otherErr m =>
      obtain ⟨t1, ht, hc⟩ := fallbackStep_trace fall url
        [.primaryCall (extractVideoId url), .logPrimary m]
      simp [getTranscript, h, hp, ht, List.countP_cons, isListReq, hc]

theorem insertVideoData_listReq (mIns : VideoData → Except PyErr Nat)
    (sIns : VideoData → Except PyErr Unit) (d : VideoData) :
    (insertVideoData mIns sIns d).countP isListReq = 0 := by
  cases hm : mIns d with
  | error e => simp [insertVideoData, insertBody, hm, isListReq]
  | ok oid =>
    cases hs : sIns { d with oid := none } with
    | error e => simp [insertVideoData, insertBody, hm, stripId, hs, isListReq]
    | ok u => simp [insertVideoData, insertBody, hm, stripId, hs, isListReq]

theorem processItem_listReq (w : World) (it : Item) :
    ((processItem w it).1).countP isListReq = 0 := by
  unfold processItem
  cases hc : check_if_video_exists w.mongoFind w.supaSelect it.id with
  | exn e => simp
  | ret v =>
    by_cases hv : truthy v
    · simp [hv, isListReq]
    · simp [hv, List.countP_append, getTranscript_listReq, insertVideoData_listReq,
        isListReq]

theorem runFoldl_trace (w : World) (items : List Item) :
    ∀ acc : List REvent × Option PyErr,
      ∃ r, (items.foldl (runStep w) acc).1 = acc.1 ++ r
        ∧ r.countP isListReq = 0 := by
  induction items with
  | nil => exact fun acc => ⟨[], by simp⟩
  | cons it its ih =>
    intro acc
    obtain ⟨r, hr, hcr⟩ := ih (runStep w acc it)
    cases acc with
    | mk t o =>
      cases o with
      | some e =>
        refine ⟨r, ?_, hcr⟩
        simpa [runStep] using hr
      | none =>
        refine ⟨(processItem w it).1 ++ r, ?_, ?_⟩
        · rw [List.foldl_cons, hr]
          simp [runStep]
        · simp [List.countP_append, hcr, processItem_listReq]

/-- C7.  Any exception escaping the body of `run` — an `HttpError` from
the listing call or anything else — is caught by a top-level handler,
logged with the corresponding tag, and the run returns normally: the body
trace is kept and only the log entry is appended. -/
theorem c7_top_level_handlers :
    (∀ (w : World) (t : List REvent) (e : PyErr),
      runBody w = (t, some e) → run w = t ++ [.logTop (topTag e) e])
    ∧ (∀ m : Str, topTag (.http m) = "YouTube API error".data)
    ∧ (∀ e : PyErr, (∀ m, e ≠ .http m) →
        topTag e = "An unexpected error occurred".data) := by
  refine ⟨?_, fun m => rfl, ?_⟩
  · intro w t e h
    unfold run
    rw [h]
  · intro e h
    cases e with
    | http m => exact absurd rfl (h m)
    | valueError m => rfl
    | attributeError m => rfl
    | apiError m => rfl
    | generic m => rfl

/-- Witness for C7: a listing failure is logged with the YouTube API tag
and the run ends normally. -/
theorem c7_witness :
    run w7 = [.listRequest 50, .logTop "YouTube API error".data (.http "quota".data)] := by
  have h := c7_top_level_handlers.1 w7 [.listRequest 50] (.http "quota".data) rfl
  simpa using h

/-- C6.  A run issues exactly one listing request, asking for at most 50
results (first conjunct: the trace of any run whose listing succeeds
starts with that single request and contains no other); and in the
concrete two-item world `w6` — one item present in store A, one new — the
run skips the first item, fully processes the second (primary transcript,
record build, both store writes, pacing sleep), performs exactly one
write cycle, and completes with no top-level error. -/
theorem c6_orchestration :
    (∀ (w : World) (items : List Item), w.listResult = .ok items →
      (run w).head? = some (.listRequest 50) ∧ (run w).countP isListReq = 1)
    ∧ run w6 = trace6
    ∧ trace6.countP isMongoWriteEv = 1
    ∧ trace6.countP isSupaWriteEv = 1
    ∧ trace6.countP isLogTopEv = 0 := by
  refine ⟨?_, by decide, by decide, by decide, by decide⟩
  intro w items h
  have hb : runBody w = items.foldl (runStep w) ([.listRequest 50], none) := by
    simp [runBody, h]
  obtain ⟨r, hr, hcr⟩ := runFoldl_trace w items ([.listRequest 50], none)
  unfold run
  rw [hb]
  cases hf : items.foldl (runStep w) ([.listRequest 50], none) with
  | mk t o =>
    have ht : t = .listRequest 50 :: r := by
      have := congrArg Prod.fst hf
      simp at this
      rw [← this, hr]
      rfl
    subst ht
    cases o with
    | none =>
      constructor
      · rfl
      · simp [List.countP_cons, isListReq, hcr]
    | some e =>
      constructor
      · rfl
      · simp [List.countP_append, List.countP_cons, isListReq, hcr]

/-- Witness for C6: the general single-request property evaluated in the
concrete world `w6`. -/
theorem c6_witness :
    (run w6).head? = some (.listRequest 50) ∧ (run w6).countP isListReq = 1 :=
  c6_orchestration.1 w6 [itemA, itemB] rfl

end YoutubeExtract
